import Mathlib

/-!
Shallow embedding of the `convert.rs` core (src/core/currency.rs,
src/core/units.rs, src/core/commands.rs) and proofs about it.

Modelling conventions:
* Rust `f64` magnitudes and rates are modelled as exact rationals (`ℚ`);
  every theorem below only evaluates arithmetic whose `f64` result is the
  double nearest to the exact rational result and whose Rust `Display`
  output equals the exact decimal rendering of that rational.
* `chrono::DateTime<Utc>` instants and `TimeDelta` durations are modelled
  as `Int` seconds since the epoch; `Utc::now()` is passed explicitly as a
  `now : Int` argument at each call that reads the clock.
* serde_json values are modelled by the `Json` inductive, distinguishing
  integer from floating JSON numbers exactly as `serde_json::Number` does
  (`as_i64` succeeds only on the integer representation, `as_f64` on both).
* serde_json objects iterate their fields in ascending key order
  (`BTreeMap`); theorems supply field lists already in that order.
* The network request and the sqlite snapshot are external effects: the
  response a refresh would obtain is passed as `req : Except APIError Json`,
  and the durable snapshot as an optional row list (`none` = the database
  is absent or unreadable, which `load_from_db` surfaces as an `Err`).
  `save_to_db` does not change the in-memory state and its result is
  discarded by the source (`let _ = self.save_to_db();`), so it is omitted.
* A Rust panic is modelled as `none`: `update` returns `none` when the
  trailing `.unwrap()` on the parsed timestamp panics (a timestamp that
  parses as i64 but is outside `DateTime::from_timestamp`'s range,
  currency.rs:78), and `request_and_update`/`get_base_rate` propagate it.
  Their refresh-attempted flag sits outside that `Option`: the network
  request precedes `update`, so whether a refresh was attempted is
  determined even in a panicking execution.
-/

/-- The currency members of src/core/units.rs (`enum CurrencyUnit`). -/
inductive CurrencyUnit where
  | USD
  | EUR
  | JPY
  | KRW
  | GBP
  | AUD
deriving DecidableEq, Repr

/-- `CurrencyUnit::get_display_map` from src/core/units.rs: for currencies
the long and the short name coincide.  The `HashMap` is modelled as an
association list; all lookups below are by predicates that are injective on
it, so the hash iteration order is irrelevant. -/
def CurrencyUnit.displayMap : List ((String × String) × CurrencyUnit) :=
  [(("USD", "USD"), CurrencyUnit.USD),
   (("EUR", "EUR"), CurrencyUnit.EUR),
   (("JPY", "JPY"), CurrencyUnit.JPY),
   (("KRW", "KRW"), CurrencyUnit.KRW),
   (("GBP", "GBP"), CurrencyUnit.GBP),
   (("AUD", "AUD"), CurrencyUnit.AUD)]

/-- `Unitlike::from_str` specialised to `CurrencyUnit`: case-sensitive
exact match against the long or the short name. -/
def CurrencyUnit.from_str (s : String) : Except String CurrencyUnit :=
  match CurrencyUnit.displayMap.find? (fun p => p.1.1 == s || p.1.2 == s) with
  | some p => Except.ok p.2
  | none => Except.error ("Invalid unit: " ++ s)

/-- `impl Display for CurrencyUnit`: the bare code, e.g. `"USD"`. -/
def CurrencyUnit.display (u : CurrencyUnit) : String :=
  match CurrencyUnit.displayMap.find? (fun p => decide (p.2 = u)) with
  | some p => p.1.1
  | none => ""

/-- `serde_json::Value`.  JSON numbers keep the integer/floating
distinction of `serde_json::Number`. -/
inductive Json where
  | null
  | bool (b : Bool)
  | numI (n : Int)
  | numF (q : ℚ)
  | str (s : String)
  | arr (elems : List Json)
  | obj (fields : List (String × Json))

/-- Indexing `value["key"]`: the field of an object, `Null` otherwise. -/
def Json.index (j : Json) (key : String) : Json :=
  match j with
  | .obj fields =>
    match fields.find? (fun p => p.1 == key) with
    | some p => p.2
    | none => .null
  | _ => .null

/-- `serde_json::Value::as_i64`: only the integer number representation. -/
def Json.as_i64 : Json → Option Int
  | .numI n => some n
  | _ => none

/-- `serde_json::Value::as_f64`: any JSON number. -/
def Json.as_f64 : Json → Option ℚ
  | .numI n => some (n : ℚ)
  | .numF q => some q
  | _ => none

/-- `serde_json::Value::as_object`, as the ordered field list. -/
def Json.as_object : Json → Option (List (String × Json))
  | .obj fields => some fields
  | _ => none

/-- `APIError` from src/core/currency.rs. -/
structure APIError where
  message : String
deriving DecidableEq, Repr

/-- `ConversionCache` from src/core/currency.rs.  The
`HashMap<CurrencyUnit, f64>` is modelled as a function into `Option ℚ`. -/
structure ConversionCache where
  cache : CurrencyUnit → Option ℚ
  expire_after : Int
  last_time : Option Int

/-- `EXPIRE_AFTER`: one week in seconds. -/
def EXPIRE_AFTER : Int := 60 * 60 * 24 * 7

/-- `HashMap::insert` on the modelled rate table. -/
def insertRate (c : CurrencyUnit) (q : ℚ) (m : CurrencyUnit → Option ℚ) :
    CurrencyUnit → Option ℚ :=
  fun x => if x = c then some q else m x

/-- `Default for ConversionCache`: empty table, one-week expiry, no
timestamp. -/
def ConversionCache.defaultCache : ConversionCache :=
  { cache := fun _ => none, expire_after := EXPIRE_AFTER, last_time := none }

/-- The `for (currency, rate) in rates` loop of `ConversionCache::update`:
each rate must be numeric (`as_f64`, else the hard failure
"Invalid rate format" aborts the loop with the insertions made so far kept),
and unrecognised currency codes are skipped. -/
def processRates (m : CurrencyUnit → Option ℚ) :
    List (String × Json) → ((CurrencyUnit → Option ℚ) × Option String)
  | [] => (m, none)
  | (name, rv) :: rest =>
    match Json.as_f64 rv with
    | none => (m, some "Invalid rate format")
    | some q =>
      match CurrencyUnit.from_str name with
      | Except.ok cu => processRates (insertRate cu q m) rest
      | Except.error _ => processRates m rest

/-- `chrono::DateTime::from_timestamp(secs, 0)` as called at
currency.rs:76: `some` exactly when the seconds value lies within chrono's
representable range, whose endpoints are the timestamps of
`DateTime::<Utc>::MIN_UTC` (-262143-01-01T00:00:00) and `MAX_UTC`
(+262142-12-31T23:59:59). -/
def DateTime.from_timestamp (secs : Int) : Option Int :=
  if -8334601228800 ≤ secs ∧ secs ≤ 8210266876799 then some secs else none

/-- The timestamp chain of `ConversionCache::update` (currency.rs:74-78),
`response["timestamp"].as_i64().map(|n| DateTime::from_timestamp(n, 0))
.unwrap_or_else(|| Some(Utc::now()))`, before its final `.unwrap()`:
`none` means that unwrap panics.  That is reachable: a timestamp that
parses as i64 but lies outside `from_timestamp`'s range makes the map
yield `Some(None)`, skipping the wall-clock fallback, so the source's
"Never panics" comment at currency.rs:78 is wrong for such responses. -/
def refreshTimestamp (response : Json) (now : Int) : Option Int :=
  ((Json.as_i64 (Json.index response "timestamp")).map
    DateTime.from_timestamp).getD (some now)

/-- `ConversionCache::update`.  `none` models the panic of the timestamp
unwrap; otherwise the post-state (the Rust method mutates `self` in place,
also on the error path) together with the result.  The timestamp falls
back to the wall clock (`now`) when `response["timestamp"].as_i64()`
fails. -/
def ConversionCache.update (st : ConversionCache) (now : Int)
    (response : Json) : Option (ConversionCache × Except APIError Unit) :=
  match refreshTimestamp response now with
  | none => none
  | some timestamp =>
    some
      (match Json.as_object (Json.index response "rates") with
       | none => (st, Except.error ⟨"Rates not found"⟩)
       | some fields =>
         match processRates st.cache fields with
         | (m, some msg) => ({ st with cache := m }, Except.error ⟨msg⟩)
         | (m, none) =>
           ({ st with cache := m, last_time := some timestamp },
             Except.ok ()))

/-- `ConversionCache::request_and_update`.  The `Bool` records that a
refresh (a `request()` round trip) was attempted; it sits outside the
`Option` because the request precedes `update`, so it is determined even
when `update` then panics (first component `none`). -/
def ConversionCache.request_and_update (st : ConversionCache) (now : Int)
    (req : Except APIError Json) (c : CurrencyUnit) :
    Option (ConversionCache × Except APIError ℚ) × Bool :=
  let res : Option (ConversionCache × Except APIError ℚ) :=
    match req with
    | Except.error e => some (st, Except.error e)
    | Except.ok resp =>
      match ConversionCache.update st now resp with
      | none => none
      | some p =>
        match p.2 with
        | Except.error e => some (p.1, Except.error e)
        | Except.ok _ =>
          some (p.1,
            (match p.1.cache c with
             | some r => Except.ok r
             | none => Except.error ⟨"Rate not found"⟩))
  (res, true)

/-- `ConversionCache::get_base_rate`: refresh when the timestamp is absent
or `last_time + expire_after < now`, otherwise serve from the table,
falling back to a refresh when the currency is missing.  The `Bool` is
`true` exactly when a refresh was attempted; the first component is `none`
when the underlying `update` panics. -/
def ConversionCache.get_base_rate (st : ConversionCache) (now : Int)
    (req : Except APIError Json) (c : CurrencyUnit) :
    Option (ConversionCache × Except APIError ℚ) × Bool :=
  match st.last_time with
  | none => ConversionCache.request_and_update st now req c
  | some t =>
    if t + st.expire_after < now then
      ConversionCache.request_and_update st now req c
    else
      match st.cache c with
      | some r => (some (st, Except.ok r), false)
      | none => ConversionCache.request_and_update st now req c

/-- One well-formed row of the `conversion_cache` sqlite table.  Rows whose
currency or timestamp text fails to parse make the source panic inside
`load_from_db` (`expect`), so the model ranges over parsed rows. -/
structure DbRow where
  currency : CurrencyUnit
  rate : ℚ
  last_update : Int

/-- `ConversionCache::load_from_db` over the modelled snapshot (`none` =
opening or querying the database failed).  The local `last_update` starts
at `Utc::now()` and is overwritten by every row in turn, so the final
timestamp is the last row's (or the load time when there are no rows). -/
def ConversionCache.load_from_db (db : Option (List DbRow)) (now : Int) :
    Option ConversionCache :=
  match db with
  | none => none
  | some rows =>
    some
      { cache := rows.foldl (fun m r => insertRate r.currency r.rate m) (fun _ => none),
        expire_after := EXPIRE_AFTER,
        last_time := some (rows.foldl (fun _ r => r.last_update) now) }

/-- `ConversionCache::new`: load the snapshot, fall back to the default
cache on failure. -/
def ConversionCache.new (db : Option (List DbRow)) (now : Int) :
    ConversionCache :=
  match ConversionCache.load_from_db db now with
  | some st => st
  | none => ConversionCache.defaultCache

/-- `ConversionError` from src/core/units.rs. -/
structure ConversionError where
  message : String
deriving DecidableEq, Repr

/-- `enum LengthUnit` from src/core/units.rs. -/
inductive LengthUnit where
  | Meter
  | Centimeter
  | Kilometer
  | Yard
  | Foot
  | Inch
deriving DecidableEq, Repr

/-- `LengthUnit::get_display_map`. -/
def LengthUnit.displayMap : List ((String × String) × LengthUnit) :=
  [(("meter", "m"), LengthUnit.Meter),
   (("centimeter", "cm"), LengthUnit.Centimeter),
   (("kilometer", "km"), LengthUnit.Kilometer),
   (("yard", "yd"), LengthUnit.Yard),
   (("foot", "ft"), LengthUnit.Foot),
   (("inch", "in"), LengthUnit.Inch)]

/-- `Unitlike::fmt` for lengths: `"<long> (<short>)"`. -/
def LengthUnit.display (u : LengthUnit) : String :=
  match LengthUnit.displayMap.find? (fun p => decide (p.2 = u)) with
  | some p => p.1.1 ++ " (" ++ p.1.2 ++ ")"
  | none => ""

/-- `Unitlike::from_str` for lengths. -/
def LengthUnit.from_str (s : String) : Except String LengthUnit :=
  match LengthUnit.displayMap.find? (fun p => p.1.1 == s || p.1.2 == s) with
  | some p => Except.ok p.2
  | none => Except.error ("Invalid unit: " ++ s)

/-- `enum MassUnit` from src/core/units.rs. -/
inductive MassUnit where
  | Kilogram
  | Gram
  | Ton
  | Pound
  | Ounce
deriving DecidableEq, Repr

/-- `MassUnit::get_display_map`. -/
def MassUnit.displayMap : List ((String × String) × MassUnit) :=
  [(("kilogram", "kg"), MassUnit.Kilogram),
   (("gram", "g"), MassUnit.Gram),
   (("ton", "t"), MassUnit.Ton),
   (("pound", "lb"), MassUnit.Pound),
   (("ounce", "oz"), MassUnit.Ounce)]

/-- `Unitlike::fmt` for masses: `"<long> (<short>)"`. -/
def MassUnit.display (u : MassUnit) : String :=
  match MassUnit.displayMap.find? (fun p => decide (p.2 = u)) with
  | some p => p.1.1 ++ " (" ++ p.1.2 ++ ")"
  | none => ""

/-- `Unitlike::from_str` for masses. -/
def MassUnit.from_str (s : String) : Except String MassUnit :=
  match MassUnit.displayMap.find? (fun p => p.1.1 == s || p.1.2 == s) with
  | some p => Except.ok p.2
  | none => Except.error ("Invalid unit: " ++ s)

/-- `LengthUnit::to_base_unit` (`Convertable`): linear scale to meters. -/
def LengthUnit.to_base_unit (u : LengthUnit) (value : ℚ) :
    Except ConversionError ℚ :=
  Except.ok
    (match u with
     | LengthUnit.Meter => value
     | LengthUnit.Centimeter => value / 100.0
     | LengthUnit.Kilometer => value * 1000.0
     | LengthUnit.Yard => value * 0.9144
     | LengthUnit.Foot => value * 0.3048
     | LengthUnit.Inch => value * 0.0254)

/-- `MassUnit::to_base_unit` (`Convertable`): linear scale to kilograms. -/
def MassUnit.to_base_unit (u : MassUnit) (value : ℚ) :
    Except ConversionError ℚ :=
  Except.ok
    (match u with
     | MassUnit.Kilogram => value
     | MassUnit.Gram => value / 1000.0
     | MassUnit.Ton => value * 1000.0
     | MassUnit.Pound => value * 0.453592
     | MassUnit.Ounce => value * 0.0283495)

/-- `CurrencyUnit::to_base_unit` (`Convertable`): consults the global
rate cache; `rateOf` stands for `CACHE.lock().unwrap().get_base_rate(*self)`
and the error text is the `Display` of the underlying `APIError`. -/
def CurrencyUnit.to_base_unit (rateOf : CurrencyUnit → Except APIError ℚ)
    (u : CurrencyUnit) (value : ℚ) : Except ConversionError ℚ :=
  match rateOf u with
  | Except.ok rate => Except.ok (value / rate)
  | Except.error e => Except.error ⟨"API error: " ++ e.message⟩

/-- The `Convertable::from_base_unit` default method, over a family's
`to_base_unit`: divide by the base value of `1.0`. -/
def from_base_via (toBase : ℚ → Except ConversionError ℚ) (value : ℚ) :
    Except ConversionError ℚ :=
  (toBase 1.0).map (fun base => value / base)

/-- The `Convertable::convert` default method: through the base unit. -/
def convert_via (tbFrom tbTo : ℚ → Except ConversionError ℚ) (value : ℚ) :
    Except ConversionError ℚ :=
  (tbFrom value).bind (fun bv => from_base_via tbTo bv)

/-- `LengthUnit::convert`. -/
def LengthUnit.convert (value : ℚ) (f t : LengthUnit) :
    Except ConversionError ℚ :=
  convert_via (LengthUnit.to_base_unit f) (LengthUnit.to_base_unit t) value

/-- `MassUnit::convert`. -/
def MassUnit.convert (value : ℚ) (f t : MassUnit) :
    Except ConversionError ℚ :=
  convert_via (MassUnit.to_base_unit f) (MassUnit.to_base_unit t) value

/-- `CurrencyUnit::convert`. -/
def CurrencyUnit.convert (rateOf : CurrencyUnit → Except APIError ℚ)
    (value : ℚ) (f t : CurrencyUnit) : Except ConversionError ℚ :=
  convert_via (CurrencyUnit.to_base_unit rateOf f)
    (CurrencyUnit.to_base_unit rateOf t) value

/-- `enum Unit` from src/core/units.rs (named `Unit'` here because `Unit`
is taken by the Lean prelude). -/
inductive Unit' where
  | length (u : LengthUnit)
  | mass (u : MassUnit)
  | currency (u : CurrencyUnit)
deriving DecidableEq, Repr

/-- `impl PartialEq for Unit`: `mem::discriminant` comparison, i.e.
family-level equality only. -/
def Unit'.famEq : Unit' → Unit' → Bool
  | Unit'.length _, Unit'.length _ => true
  | Unit'.mass _, Unit'.mass _ => true
  | Unit'.currency _, Unit'.currency _ => true
  | _, _ => false

/-- `impl Display for Unit`: delegate to the member's display. -/
def Unit'.display : Unit' → String
  | Unit'.length u => LengthUnit.display u
  | Unit'.mass u => MassUnit.display u
  | Unit'.currency u => CurrencyUnit.display u

/-- `Unit::convert`: dispatch on the family pair, rejecting cross-family
pairs with a message naming both units. -/
def Unit'.convert (rateOf : CurrencyUnit → Except APIError ℚ) (value : ℚ)
    (f t : Unit') : Except ConversionError ℚ :=
  match f, t with
  | Unit'.length a, Unit'.length b => LengthUnit.convert value a b
  | Unit'.mass a, Unit'.mass b => MassUnit.convert value a b
  | Unit'.currency a, Unit'.currency b => CurrencyUnit.convert rateOf value a b
  | _, _ =>
    Except.error
      ⟨"Cannot convert from " ++ Unit'.display f ++ " to " ++ Unit'.display t⟩

/-- `impl FromStr for Unit`: try length, then mass, then currency. -/
def Unit'.from_str (s : String) : Except String Unit' :=
  match LengthUnit.from_str s with
  | Except.ok u => Except.ok (Unit'.length u)
  | Except.error _ =>
    match MassUnit.from_str s with
    | Except.ok u => Except.ok (Unit'.mass u)
    | Except.error _ =>
      match CurrencyUnit.from_str s with
      | Except.ok u => Except.ok (Unit'.currency u)
      | Except.error _ => Except.error ("Invalid unit: " ++ s)

/-- `Unit::get_all_units`: every member of every family, families in
declaration order, members in declaration order. -/
def Unit'.get_all_units : List Unit' :=
  [LengthUnit.Meter, LengthUnit.Centimeter, LengthUnit.Kilometer,
   LengthUnit.Yard, LengthUnit.Foot, LengthUnit.Inch].map Unit'.length ++
  [MassUnit.Kilogram, MassUnit.Gram, MassUnit.Ton, MassUnit.Pound,
   MassUnit.Ounce].map Unit'.mass ++
  [CurrencyUnit.USD, CurrencyUnit.EUR, CurrencyUnit.JPY, CurrencyUnit.KRW,
   CurrencyUnit.GBP, CurrencyUnit.AUD].map Unit'.currency

/-- `struct Value` from src/core/units.rs. -/
structure Value where
  value : Option ℚ
  unit : Unit'

/-- `Value::new`: the public constructor always stores `Some(value)`. -/
def Value.new (v : ℚ) (u : Unit') : Value :=
  { value := some v, unit := u }

/-- The `derive(PartialEq)` equality of `Value`: component-wise, with the
unit component compared by the family-level `Unit` equality. -/
def Value.eqv (a b : Value) : Bool :=
  decide (a.value = b.value) && Unit'.famEq a.unit b.unit

/-- `Value::convert_to`: absent magnitude, then family compatibility
(`self.unit != *to` under the family-level equality), then the family's
arithmetic. -/
def Value.convert_to (rateOf : CurrencyUnit → Except APIError ℚ)
    (self : Value) (tgt : Unit') : Except ConversionError Value :=
  match self.value with
  | none => Except.error ⟨"Value is None"⟩
  | some v =>
    if Unit'.famEq self.unit tgt = false then
      Except.error
        ⟨"Cannot convert from " ++ Unit'.display self.unit ++ " to " ++
          Unit'.display tgt⟩
    else
      (Unit'.convert rateOf v self.unit tgt).map
        (fun nv => { value := some nv, unit := tgt })

/-- Fractional digits of a rational in `[0, 1)`, most significant first,
with explicit fuel; stops at the first zero remainder, so terminating
decimal expansions are rendered without trailing zeros. -/
def fracDigits : Nat → ℚ → String
  | 0, _ => ""
  | fuel + 1, r =>
    if r.num = 0 then ""
    else
      let r10 := r * 10
      let d := r10.floor.toNat
      toString d ++ fracDigits fuel (r10 - (d : ℚ))

/-- Decimal rendering of a rational: models Rust's `Display` for `f64`
(the shortest decimal that round-trips), which for every value displayed in
the theorems below coincides with the exact decimal expansion of the
rational result (e.g. `0.1`, `0`, `1000`). -/
def ratDisplay (q : ℚ) : String :=
  let a := if q.num < 0 then -q else q
  let ip := a.floor.toNat
  let frac := fracDigits 60 (a - (ip : ℚ))
  (if q.num < 0 then "-" else "") ++ toString ip ++
    (if frac = "" then "" else "." ++ frac)

/-- `impl Display for Value`: `"<value> <unit>"`. -/
def Value.toDisplay (v : Value) : String :=
  match v.value with
  | some q => ratDisplay q ++ " " ++ Unit'.display v.unit
  | none => "None " ++ Unit'.display v.unit

/-- The regex crate's `\s` (the whitespace characters reachable from the
ASCII inputs of this development). -/
def isWsChar (c : Char) : Bool :=
  c = ' ' || c = '\t' || c = '\n' || c = '\x0b' || c = '\x0c' || c = '\r'

/-- The regex crate's `.`: any character except a newline. -/
def isDotChar (c : Char) : Bool :=
  c ≠ '\n'

/-- Matches the fixed tail `\s->\s(.+)` of the conversion pattern at the
start of `cs`, returning the third capture (maximal, nonempty). -/
def tailCapture (cs : List Char) : Option String :=
  match cs with
  | a :: '-' :: '>' :: b :: rest =>
    if isWsChar a && isWsChar b then
      let g3 := rest.takeWhile isDotChar
      if g3.isEmpty then none else some (String.mk g3)
    else none
  | _ => none

/-- Backtracking for the greedy `(.+)\s->\s(.+)`: try the second capture at
every length from `n` down to 1, longest first, as the regex engine does. -/
def midCapture : Nat → List Char → Option (String × String)
  | 0, _ => none
  | n + 1, cs =>
    let pre := cs.take (n + 1)
    if pre.all isDotChar then
      match tailCapture (cs.drop (n + 1)) with
      | some g3 => some (String.mk pre, g3)
      | none => midCapture n cs
    else midCapture n cs

/-- One attempt of the pattern `(\d+(?:\.\d+)?)\s(.+)\s->\s(.+)` anchored
at the head of `cs`.  `\d+` and the optional fraction are taken by maximal
munch: any shorter choice leaves a digit in front of `\s` (or of `\.`),
which can never match, so no completed match is lost. -/
def tryAt (cs : List Char) : Option (String × String × String) :=
  let ds := cs.takeWhile Char.isDigit
  let r1 := cs.dropWhile Char.isDigit
  if ds.isEmpty then none
  else
    let gf :=
      match r1 with
      | '.' :: r =>
        let fs := r.takeWhile Char.isDigit
        if fs.isEmpty then (ds, r1)
        else (ds ++ '.' :: fs, r.dropWhile Char.isDigit)
      | _ => (ds, r1)
    match gf.2 with
    | c :: r3 =>
      if isWsChar c then
        (midCapture r3.length r3).map (fun p => (String.mk gf.1, p.1, p.2))
      else none
    | [] => none

/-- `Regex::captures` is leftmost: try the pattern at every start
position, first position first. -/
def tryFrom : List Char → Option (String × String × String)
  | [] => none
  | c :: rest => (tryAt (c :: rest)).orElse (fun _ => tryFrom rest)

/-- The `re.captures(s)` call of `Command::try_parse_conversion` for the
pattern `(\d+(?:\.\d+)?)\s(.+)\s->\s(.+)`. -/
def matchConversion (s : String) : Option (String × String × String) :=
  tryFrom s.toList

/-- Digit run to a natural number. -/
def digitsToNat (cs : List Char) : Nat :=
  cs.foldl (fun a c => a * 10 + (c.toNat - 48)) 0

/-- `caps[1].parse::<f64>()` on a `\d+(?:\.\d+)?` capture, modelled as the
exact rational it denotes. -/
def parseDecimal (s : String) : ℚ :=
  let cs := s.toList
  let ip := cs.takeWhile (fun c => c ≠ '.')
  let fp := (cs.dropWhile (fun c => c ≠ '.')).drop 1
  (digitsToNat ip : ℚ) + (digitsToNat fp : ℚ) / ((10 : ℚ) ^ fp.length)

/-- `enum Command` from src/core/commands.rs. -/
inductive Command where
  | convert (v : Value) (tgt : Unit')
  | units
  | help
  | exit

/-- `Command::try_parse_conversion`. -/
def Command.try_parse_conversion (s : String) : Except String Command :=
  match matchConversion s with
  | some caps =>
    match Unit'.from_str caps.2.1 with
    | Except.error e => Except.error e
    | Except.ok fromU =>
      match Unit'.from_str caps.2.2 with
      | Except.error e => Except.error e
      | Except.ok toU =>
        Except.ok (Command.convert (Value.new (parseDecimal caps.1) fromU) toU)
  | none =>
    Except.error
      "Invalid input. Expression should be in the form <value> <unit> -> <unit>."

/-- `impl FromStr for Command`: the exact keywords win, anything else is
the conversion-parse result. -/
def Command.from_str (s : String) : Except String Command :=
  let conv := Command.try_parse_conversion s
  if s = "units" then Except.ok Command.units
  else if s = "help" then Except.ok Command.help
  else if s = "exit" then Except.ok Command.exit
  else conv

/-- `Command::execute`: render the converted value or the conversion
error, both as plain text. -/
def Command.execute (rateOf : CurrencyUnit → Except APIError ℚ) :
    Command → String
  | Command.convert v tgt =>
    (match Value.convert_to rateOf v tgt with
     | Except.ok nv => Value.toDisplay nv
     | Except.error e => "Conversion error: " ++ e.message)
  | Command.units =>
    "Available units:\n" ++
      String.join (Unit'.get_all_units.map (fun u => Unit'.display u ++ "\n"))
  | Command.help => "HEEEEELP!"
  | Command.exit => ""

/-- One REPL step on a parsed line: execute the command, or report the
parse error text (src/ui/cli.rs prints either string). -/
def runLine (rateOf : CurrencyUnit → Except APIError ℚ) (s : String) :
    String :=
  match Command.from_str s with
  | Except.ok c => Command.execute rateOf c
  | Except.error e => e

/-- The table produced by a run of the rate loop that never aborts: every
recognised currency is inserted with its numeric rate, others skipped. -/
def applyRates (m : CurrencyUnit → Option ℚ) (fields : List (String × Json)) :
    CurrencyUnit → Option ℚ :=
  fields.foldl
    (fun acc p =>
      match Json.as_f64 p.2, CurrencyUnit.from_str p.1 with
      | some q, Except.ok cu => insertRate cu q acc
      | _, _ => acc)
    m

/-- A concrete refresh response whose alphabetically later rate entry is
non-numeric while the earlier one is a valid `AUD` rate. -/
def respWithBadRate : Json :=
  Json.obj
    [("rates",
      Json.obj [("AUD", Json.numF (3 / 2)), ("EUR", Json.str "invalid")]),
     ("timestamp", Json.numI 1000)]

/-- A concrete refresh response with a well-formed rates object but a
non-numeric timestamp (the shape of `test_update_with_invalid_timestamp`). -/
def respBadTs : Json :=
  Json.obj
    [("rates", Json.obj [("EUR", Json.numF 1)]),
     ("timestamp", Json.str "invalid")]

/-- A cache refreshed at time 0 holding a rate for EUR. -/
def freshState : ConversionCache :=
  { cache := insertRate CurrencyUnit.EUR 2 (fun _ => none),
    expire_after := EXPIRE_AFTER,
    last_time := some 0 }

/-- A two-row snapshot whose timestamps decrease: maximum 100 first,
then 50. -/
def exRows : List DbRow :=
  [⟨CurrencyUnit.USD, 1, 100⟩, ⟨CurrencyUnit.EUR, 2, 50⟩]

theorem request_and_update_fetched (st : ConversionCache) (now : Int)
    (req : Except APIError Json) (c : CurrencyUnit) :
    (ConversionCache.request_and_update st now req c).2 = true := rfl

theorem processRates_all_num (fields : List (String × Json))
    (h : ∀ p ∈ fields, (Json.as_f64 p.2).isSome) (m : CurrencyUnit → Option ℚ) :
    processRates m fields = (applyRates m fields, none) := by
  induction fields generalizing m with
  | nil => rfl
  | cons hd tl ih =>
    obtain ⟨nm, rv⟩ := hd
    have hhd : (Json.as_f64 rv).isSome := h _ (List.mem_cons_self _ _)
    obtain ⟨q, hq⟩ := Option.isSome_iff_exists.mp hhd
    have htl : ∀ p ∈ tl, (Json.as_f64 p.2).isSome :=
      fun p hp => h p (List.mem_cons_of_mem _ hp)
    simp only [processRates, applyRates, List.foldl_cons, hq]
    cases hcu : CurrencyUnit.from_str nm with
    | ok cu => simpa [applyRates] using ih htl (insertRate cu q m)
    | error e => simpa [applyRates] using ih htl m

theorem processRates_first_bad (good : List (String × Json))
    (h : ∀ p ∈ good, (Json.as_f64 p.2).isSome) (nm : String) (bad : Json)
    (rest : List (String × Json)) (hbad : Json.as_f64 bad = none)
    (m : CurrencyUnit → Option ℚ) :
    processRates m (good ++ (nm, bad) :: rest) =
      (applyRates m good, some "Invalid rate format") := by
  induction good generalizing m with
  | nil => simp [processRates, applyRates, hbad]
  | cons hd tl ih =>
    obtain ⟨nm0, rv⟩ := hd
    have hhd : (Json.as_f64 rv).isSome := h _ (List.mem_cons_self _ _)
    obtain ⟨q, hq⟩ := Option.isSome_iff_exists.mp hhd
    have htl : ∀ p ∈ tl, (Json.as_f64 p.2).isSome :=
      fun p hp => h p (List.mem_cons_of_mem _ hp)
    simp only [List.cons_append, processRates, applyRates, List.foldl_cons, hq]
    cases hcu : CurrencyUnit.from_str nm0 with
    | ok cu => simpa [applyRates] using ih htl (insertRate cu q m)
    | error e => simpa [applyRates] using ih htl m

/-- Claim C1 counterexample: on a refresh response with an in-range
timestamp (no panic) whose `EUR` rate is non-numeric but whose earlier
`AUD` rate is valid, `update` does return an error, yet the `AUD` entry
from the failed response has been committed to the previously empty
in-memory table, so the table is not left unchanged. -/
theorem update_partial_commit_cex :
    (ConversionCache.defaultCache.update 5 respWithBadRate).map Prod.snd =
        some (Except.error ⟨"Invalid rate format"⟩) ∧
      (ConversionCache.defaultCache.update 5 respWithBadRate).map
          (fun p => p.1.cache CurrencyUnit.AUD) = some (some (3 / 2)) ∧
      ConversionCache.defaultCache.cache CurrencyUnit.AUD = none := by
  exact ⟨rfl, rfl, rfl⟩

/-- The panic path that `update` keeps visible: a timestamp that parses as
i64 but exceeds `from_timestamp`'s range makes `update` panic (`none`)
before the rates loop runs, even though the response also carries a bad
rate entry that would otherwise yield the `Invalid rate format` error. -/
theorem update_out_of_range_timestamp :
    ConversionCache.defaultCache.update 5
      (Json.obj
        [("rates", Json.obj [("EUR", Json.str "invalid")]),
         ("timestamp", Json.numI 1000000000000000)]) = none := rfl

/-- Claim C1 (amended): for every refresh response whose timestamp chain
does not panic (the timestamp is absent or unparsable — wall-clock
fallback — or parsable and within `from_timestamp`'s range, i.e.
`refreshTimestamp` yields a value), if the rates object contains a
non-numeric rate entry then `update` returns the `Invalid rate format`
error and leaves `last_time` (and `expire_after`) unchanged, but the
in-memory table is not rolled back: it already holds every recognised
entry that preceded the first non-numeric one. -/
theorem update_bad_rate_behavior (st : ConversionCache) (now ts : Int)
    (resp : Json) (fields good : List (String × Json)) (nm : String)
    (bad : Json) (rest : List (String × Json))
    (hts : refreshTimestamp resp now = some ts)
    (hobj : Json.as_object (Json.index resp "rates") = some fields)
    (hsplit : fields = good ++ (nm, bad) :: rest)
    (hgood : ∀ p ∈ good, (Json.as_f64 p.2).isSome)
    (hbad : Json.as_f64 bad = none) :
    ConversionCache.update st now resp =
      some ({ st with cache := applyRates st.cache good },
        Except.error ⟨"Invalid rate format"⟩) := by
  subst hsplit
  simp only [ConversionCache.update, hts, hobj,
    processRates_first_bad good hgood nm bad rest hbad st.cache]

/-- Claim C1 witness for the amended theorem, at the concrete response
`respWithBadRate` on the empty default cache. -/
theorem update_bad_rate_behavior_witness :
    ConversionCache.update ConversionCache.defaultCache 5 respWithBadRate =
      some ({ ConversionCache.defaultCache with
          cache :=
            applyRates ConversionCache.defaultCache.cache
              [("AUD", Json.numF (3 / 2))] },
        Except.error ⟨"Invalid rate format"⟩) :=
  update_bad_rate_behavior ConversionCache.defaultCache 5 1000
    respWithBadRate
    [("AUD", Json.numF (3 / 2)), ("EUR", Json.str "invalid")]
    [("AUD", Json.numF (3 / 2))] "EUR" (Json.str "invalid") [] (by decide)
    rfl rfl (by decide) rfl

/-- Claim C4: when the rates object of a refresh response parses
successfully (it is an object and every rate is numeric), `update` never
fails or panics merely because `response["timestamp"]` is missing or
unparsable (`as_i64 = none`, where the wall-clock fallback provably
applies): it succeeds, commits the full rate table, and sets
`last_refreshed` to the current wall-clock time. -/
theorem update_bad_timestamp_ok (st : ConversionCache) (now : Int)
    (resp : Json) (fields : List (String × Json))
    (hts : Json.as_i64 (Json.index resp "timestamp") = none)
    (hobj : Json.as_object (Json.index resp "rates") = some fields)
    (hnum : ∀ p ∈ fields, (Json.as_f64 p.2).isSome) :
    ConversionCache.update st now resp =
      some ({ st with
                cache := applyRates st.cache fields,
                last_time := some now },
        Except.ok ()) := by
  simp [ConversionCache.update, refreshTimestamp, hts, hobj,
    processRates_all_num fields hnum st.cache]

/-- Claim C4 witness: the concrete response `respBadTs` (numeric `EUR`
rate, string timestamp) refreshes successfully at wall-clock time 77. -/
theorem update_bad_timestamp_ok_witness :
    ConversionCache.defaultCache.update 77 respBadTs =
      some ({ ConversionCache.defaultCache with
                cache :=
                  applyRates ConversionCache.defaultCache.cache
                    [("EUR", Json.numF 1)],
                last_time := some 77 },
        Except.ok ()) :=
  update_bad_timestamp_ok ConversionCache.defaultCache 77 respBadTs
    [("EUR", Json.numF 1)] rfl rfl (by decide)

/-- Claim C2 counterexample: at the boundary `now - last_refreshed ==
expiration` (here `now = 604800`, `last_refreshed = 0`, expiration one
week) the cache does NOT refresh: it serves the stored EUR rate from the
table with no fetch, because the staleness test is strict
(`last_time + expire_after < now`). -/
theorem get_base_rate_boundary_cex :
    (freshState.get_base_rate 604800 (Except.error ⟨"no net"⟩)
        CurrencyUnit.EUR).2 = false ∧
      (freshState.get_base_rate 604800 (Except.error ⟨"no net"⟩)
          CurrencyUnit.EUR).1 = some (freshState, Except.ok 2) ∧
      freshState.last_time = some 0 ∧
      freshState.expire_after = 604800 ∧
      (604800 : Int) - 0 ≥ 604800 := by
  refine ⟨rfl, rfl, rfl, by decide, by decide⟩

/-- Claim C2 (amended): `get_base_rate` attempts a refresh exactly when
the timestamp is absent, or `now - last_refreshed > expiration` holds
STRICTLY (the boundary case counts as Fresh), or the requested currency is
missing from the table despite the table being fresh; in every other case
it serves from the existing table without a fetch. -/
theorem get_base_rate_refresh_iff (st : ConversionCache) (now : Int)
    (req : Except APIError Json) (c : CurrencyUnit) :
    (st.get_base_rate now req c).2 = true ↔
      (st.last_time = none ∨
        (∃ t, st.last_time = some t ∧ t + st.expire_after < now) ∨
        st.cache c = none) := by
  cases hlast : st.last_time with
  | none => simp [ConversionCache.get_base_rate, hlast,
      request_and_update_fetched]
  | some t =>
    by_cases hlt : t + st.expire_after < now
    · simp [ConversionCache.get_base_rate, hlast, hlt,
        request_and_update_fetched]
    · cases hc : st.cache c with
      | none =>
        simp [ConversionCache.get_base_rate, hlast, hlt, hc,
          request_and_update_fetched]
      | some r =>
        simp [ConversionCache.get_base_rate, hlast, hlt, hc]

/-- Claim C3 counterexample: loading a readable two-row snapshot whose
timestamps are 100 then 50 sets `last_refreshed` to 50, the timestamp of
the LAST row processed, not to the maximum 100 found in the snapshot. -/
theorem load_last_row_cex :
    (ConversionCache.new (some exRows) 7).last_time = some 50 ∧
      exRows.foldl (fun a r => max a r.last_update) 0 = 100 ∧
      (50 : Int) ≠ 100 := by
  refine ⟨rfl, by decide, by decide⟩

/-- Claim C3 (amended): `new` attempts to load the durable snapshot; if it
is absent or unreadable the cache starts with an empty table and an absent
`last_refreshed` (the default, forcing a refresh on first use); when a
snapshot is loaded, the table is the fold of its rows and `last_refreshed`
becomes the timestamp of the last row processed (which is the only
timestamp when the snapshot has a single one), or the load time itself
when the snapshot has no rows. -/
theorem new_snapshot_behavior (db : Option (List DbRow)) (now : Int) :
    (db = none → ConversionCache.new db now = ConversionCache.defaultCache) ∧
      (∀ rows, db = some rows →
        (ConversionCache.new db now).last_time =
            some (rows.foldl (fun _ r => r.last_update) now) ∧
          (ConversionCache.new db now).cache =
            rows.foldl (fun m r => insertRate r.currency r.rate m)
              (fun _ => none) ∧
          (ConversionCache.new db now).expire_after = EXPIRE_AFTER) := by
  constructor
  · intro h
    subst h
    rfl
  · intro rows h
    subst h
    exact ⟨rfl, rfl, rfl⟩

/-- Claim C3 witness for the amended theorem: the unreadable snapshot
yields the stale default, and the concrete snapshot `exRows` yields the
last row's timestamp 50. -/
theorem new_snapshot_behavior_witness :
    ConversionCache.new none 7 = ConversionCache.defaultCache ∧
      (ConversionCache.new (some exRows) 7).last_time = some 50 :=
  ⟨(new_snapshot_behavior none 7).1 rfl,
    ((new_snapshot_behavior (some exRows) 7).2 exRows rfl).1⟩

/-- Claim C8: when the cache is Fresh (`last_time = some t` with
`t + expire_after < now` false) and the requested currency is present,
`get_base_rate` returns the stored rate, leaves the whole cache state
unchanged and performs no fetch; consequently a second call for the same
currency still within the window returns the identical rate, again with
no fetch. -/
theorem get_base_rate_fresh_hit (st : ConversionCache) (now now2 : Int)
    (req req2 : Except APIError Json) (c : CurrencyUnit) (t : Int) (r : ℚ)
    (hlast : st.last_time = some t)
    (hfresh : ¬(t + st.expire_after < now))
    (hhit : st.cache c = some r) :
    st.get_base_rate now req c = (some (st, Except.ok r), false) ∧
      (∀ p, (st.get_base_rate now req c).1 = some p →
        ¬(t + st.expire_after < now2) →
        p.1.get_base_rate now2 req2 c = (some (st, Except.ok r), false)) := by
  have h1 : st.get_base_rate now req c = (some (st, Except.ok r), false) := by
    simp [ConversionCache.get_base_rate, hlast, hfresh, hhit]
  refine ⟨h1, fun p hp hfresh2 => ?_⟩
  rw [h1] at hp
  obtain rfl : p = (st, Except.ok r) := (Option.some.inj hp).symm
  simp [ConversionCache.get_base_rate, hlast, hfresh2, hhit]

/-- Claim C8 witness: on `freshState` (refreshed at time 0, EUR stored)
two consecutive calls at times 10 and 20 — the second run on the state the
first returned — both serve the stored rate 2 with no fetch and no state
change. -/
theorem get_base_rate_fresh_hit_witness :
    freshState.get_base_rate 10 (Except.error ⟨"no net"⟩) CurrencyUnit.EUR =
        (some (freshState, Except.ok 2), false) ∧
      freshState.get_base_rate 20 (Except.error ⟨"no net"⟩)
          CurrencyUnit.EUR =
        (some (freshState, Except.ok 2), false) := by
  have h := get_base_rate_fresh_hit freshState 10 20
    (Except.error ⟨"no net"⟩) (Except.error ⟨"no net"⟩) CurrencyUnit.EUR
    0 2 rfl (by decide) rfl
  exact ⟨h.1, h.2 (freshState, Except.ok 2) (by rw [h.1]) (by decide)⟩

/-- Claim C7: for every constructed `Value` and every target unit of a
different family, `convert_to` returns the conversion error whose message
names both the source and the target unit — it never returns `Ok` and has
no panicking path, whatever the magnitude. -/
theorem convert_to_cross_family_error
    (rateOf : CurrencyUnit → Except APIError ℚ) (v : ℚ) (u t : Unit')
    (hfam : Unit'.famEq u t = false) :
    Value.convert_to rateOf (Value.new v u) t =
      Except.error
        ⟨"Cannot convert from " ++ Unit'.display u ++ " to " ++
          Unit'.display t⟩ := by
  simp [Value.convert_to, Value.new, hfam]

/-- Claim C7 witness: converting 1 meter to kilograms fails with the error
naming both units. -/
theorem convert_to_cross_family_error_witness :
    Unit'.famEq (Unit'.length LengthUnit.Meter)
        (Unit'.mass MassUnit.Kilogram) = false ∧
      Value.convert_to (fun _ => Except.error ⟨"k"⟩)
          (Value.new 1 (Unit'.length LengthUnit.Meter))
          (Unit'.mass MassUnit.Kilogram) =
        Except.error ⟨"Cannot convert from meter (m) to kilogram (kg)"⟩ :=
  ⟨rfl,
    convert_to_cross_family_error (fun _ => Except.error ⟨"k"⟩) 1
      (Unit'.length LengthUnit.Meter) (Unit'.mass MassUnit.Kilogram) rfl⟩

/-- Claim C9: parsing and executing the line `100 m -> km` produces
exactly `0.1 kilometer (km)`; likewise `0 m -> km` produces
`0 kilometer (km)` and `1 kg -> g` produces `1000 gram (g)` — for any
behaviour of the currency cache, which these length/mass conversions never
consult. -/
theorem run_line_end_to_end (rateOf : CurrencyUnit → Except APIError ℚ) :
    runLine rateOf "100 m -> km" = "0.1 kilometer (km)" ∧
      runLine rateOf "0 m -> km" = "0 kilometer (km)" ∧
      runLine rateOf "1 kg -> g" = "1000 gram (g)" := by
  refine ⟨?_, ?_, ?_⟩ <;> with_unfolding_all rfl

/-- Claim C10: the derived equality on `Value` is magnitude-plus-family:
two values with the same magnitude and units of the same family are equal
even when the members differ, because `Unit` equality compares only the
family discriminant. -/
theorem value_eq_family_level (v : ℚ) (u1 u2 : Unit')
    (hfam : Unit'.famEq u1 u2 = true) :
    Value.eqv (Value.new v u1) (Value.new v u2) = true := by
  simp [Value.eqv, Value.new, hfam]

/-- Claim C10 witness: `Value 1.0 meter` equals `Value 1.0 kilometer`. -/
theorem value_eq_family_level_witness :
    Unit'.famEq (Unit'.length LengthUnit.Meter)
        (Unit'.length LengthUnit.Kilometer) = true ∧
      Value.eqv (Value.new 1 (Unit'.length LengthUnit.Meter))
          (Value.new 1 (Unit'.length LengthUnit.Kilometer)) = true :=
  ⟨rfl,
    value_eq_family_level 1 (Unit'.length LengthUnit.Meter)
      (Unit'.length LengthUnit.Kilometer) rfl⟩

/-- Claim C9 witness: the three end-to-end outputs at a concrete cache
behaviour (a failing rate source, which the length/mass paths ignore). -/
theorem run_line_end_to_end_witness :
    runLine (fun _ => Except.error ⟨"x"⟩) "100 m -> km" =
        "0.1 kilometer (km)" ∧
      runLine (fun _ => Except.error ⟨"x"⟩) "0 m -> km" =
        "0 kilometer (km)" ∧
      runLine (fun _ => Except.error ⟨"x"⟩) "1 kg -> g" =
        "1000 gram (g)" :=
  run_line_end_to_end (fun _ => Except.error ⟨"x"⟩)
